import Mathlib

/-!
# Verification of the clawdis tray state/menu subsystem

Shallow embedding of `src/apps/clawdis/src-tauri/src/lib.rs`.

The Rust source stores four independently locked state fields (connection
status, token usage, health status, latency) plus an optional tray-icon
handle, and rebuilds a textual menu and tooltip from a snapshot of the
fields after every update.  We embed:

* the enums and records (`ConnectionStatus`, `HealthStatus`, `TokenUsage`,
  `HealthInfo`, `TrayState`);
* the pure text rendering (`format_tokens`, `status_text`, `health_text`,
  `usage_text`, `tooltip_text`, `build_tray_menu`);
* the update operations (`set_tray_status`, `set_tray_usage`,
  `set_tray_health`) over an explicit state record, with the fallible
  framework calls (menu construction, `set_tooltip`, `set_menu`) modelled
  by an error oracle `RenderEnv`.

`format_tokens` in the source computes `count as f64 / 1_000_000.0` (resp.
`/ 1_000.0`) and prints it with Rust's `{:.1}` format.  Both the `u64 → f64`
cast and the `f64` division are IEEE-754 binary64 operations in the default
rounding mode (round to nearest, ties to even), and `{:.1}` rounds the
exact decimal expansion of the resulting binary64 value to one fractional
digit, again with ties to even.  We model this exactly over unreduced
numerator/denominator pairs of naturals: `roundF64` rounds a nonnegative
rational to the nearest binary64-representable value (all values arising
here are normal and far from overflow or the subnormal range), and
`fmtPrec1` performs the one-digit decimal rounding.
-/

namespace Clawdis

/-- `⌊log₂ n⌋` by structural recursion on a fuel argument, so that it
reduces in the kernel; exact whenever `fuel ≥ log₂ n`. -/
def log2fuel : ℕ → ℕ → ℕ
  | 0, _ => 0
  | f + 1, n => if 2 ≤ n then log2fuel f (n / 2) + 1 else 0

/-- `⌊log₂ n⌋` (0 at 0). -/
def natLog2 (n : ℕ) : ℕ := log2fuel n n

/-- Does the rational `n / d` lie strictly below `2 ^ t`? -/
def ratLtPow2 (n d : ℕ) (t : ℤ) : Bool :=
  if 0 ≤ t then decide (n < d * 2 ^ t.toNat) else decide (n * 2 ^ (-t).toNat < d)

/-- `⌊log₂ (n / d)⌋` for positive `n / d`: the estimate from the numerator
and denominator logarithms is exact or one too large, and one comparison
corrects it. -/
def floorLog2 (n d : ℕ) : ℤ :=
  let e : ℤ := (natLog2 n : ℤ) - (natLog2 d : ℤ)
  if ratLtPow2 n d e then e - 1 else e

/-- Round the nonnegative rational `n / d` to the nearest natural number,
ties to even (the IEEE-754 default rounding, also used by Rust's
exact-mode float formatting). -/
def roundHalfEven (n d : ℕ) : ℕ :=
  let i := n / d
  let r := 2 * (n % d)
  if r < d then i
  else if d < r then i + 1
  else if i % 2 = 0 then i else i + 1

/-- Round the nonnegative rational `n / d` to the nearest IEEE-754 binary64
value (round to nearest, ties to even), returned as the exact
numerator/denominator pair that the binary64 value denotes.  The rational
is scaled by a power of two into the significand window `[2^52, 2^53)` and
its significand rounded there.  Subnormals and overflow do not arise for
the magnitudes `format_tokens` produces. -/
def roundF64 (n d : ℕ) : ℕ × ℕ :=
  if n = 0 then (0, 1)
  else
    let shift : ℤ := 52 - floorLog2 n d
    if 0 ≤ shift then
      (roundHalfEven (n * 2 ^ shift.toNat) d, 2 ^ shift.toNat)
    else
      (roundHalfEven n (d * 2 ^ (-shift).toNat) * 2 ^ (-shift).toNat, 1)

/-- Rust's `{:.1}` applied to the nonnegative dyadic value `n / d`: round
the exact value to one fractional decimal digit, ties to even, and print
the integer part, a dot, and the single fractional digit. -/
def fmtPrec1 (n d : ℕ) : String :=
  let n10 := roundHalfEven (n * 10) d
  toString (n10 / 10) ++ "." ++ toString (n10 % 10)

/-- `fn format_tokens(count: u64) -> String` — format a token count with
`k`/`M` suffixes.  The branch conditions compare the `u64` itself; the
quotient is computed in binary64 (`count as f64 / 1_000_000.0`, resp.
`/ 1_000.0`, the divisors being exactly representable) and printed with
`{:.1}`. -/
def format_tokens (count : ℕ) : String :=
  if count ≥ 1000000 then
    let c := roundF64 count 1
    let q := roundF64 c.1 (c.2 * 1000000)
    fmtPrec1 q.1 q.2 ++ "M"
  else if count ≥ 1000 then
    let c := roundF64 count 1
    let q := roundF64 c.1 (c.2 * 1000)
    fmtPrec1 q.1 q.2 ++ "k"
  else
    toString count

/-- `enum ConnectionStatus` — connection status for the tray. -/
inductive ConnectionStatus
  | connected
  | connecting
  | disconnected
  | error
deriving DecidableEq, Repr

/-- `enum HealthStatus` — health status for the tray. -/
inductive HealthStatus
  | healthy
  | degraded
  | unhealthy
  | unknown
deriving DecidableEq, Repr

/-- `struct TokenUsage` — token usage for display (`u64` counters). -/
structure TokenUsage where
  input_tokens : ℕ
  output_tokens : ℕ
  total_tokens : ℕ
deriving DecidableEq, Repr

/-- `TokenUsage::default()` — all counters zero. -/
def TokenUsage.default : TokenUsage := ⟨0, 0, 0⟩

/-- `struct HealthInfo` — health info for a tray update. -/
structure HealthInfo where
  status : HealthStatus
  latency : Option ℕ
deriving DecidableEq, Repr

/-- One entry of the tray menu: a `MenuItem::with_id(app, id, text, enabled,
accelerator)` or a separator. -/
inductive MenuEntry
  | item (id : String) (text : String) (enabled : Bool) (accel : Option String)
  | separator
deriving DecidableEq, Repr

/-- The status indicator text of `build_tray_menu` (`match status`). -/
def status_text : ConnectionStatus → String
  | .connected => "● Connected"
  | .connecting => "○ Connecting..."
  | .disconnected => "○ Disconnected"
  | .error => "✕ Connection Error"

/-- The health indicator text of `build_tray_menu` (`match health`,
consulting `latency` only in the `Healthy` and `Degraded` arms). -/
def health_text : HealthStatus → Option ℕ → String
  | .healthy, some ms => "♥ Healthy (" ++ toString ms ++ "ms)"
  | .healthy, none => "♥ Healthy"
  | .degraded, some ms => "◐ Degraded (" ++ toString ms ++ "ms)"
  | .degraded, none => "◐ Degraded"
  | .unhealthy, _ => "✕ Unhealthy"
  | .unknown, _ => "? Unknown"

/-- The usage text of `build_tray_menu` (`if usage.total_tokens > 0`). -/
def usage_text (usage : TokenUsage) : String :=
  if usage.total_tokens > 0 then
    "Tokens: " ++ format_tokens usage.total_tokens ++ " (↓" ++
      format_tokens usage.input_tokens ++ " ↑" ++
      format_tokens usage.output_tokens ++ ")"
  else
    "Tokens: —"

/-- `fn build_tray_menu` — the menu built from a snapshot of the four state
fields: three disabled indicator items, then the always-enabled action
items, with separators as in the source's `MenuBuilder` chain.  (The
source returns `Result` because each framework constructor may fail; those
environmental failures are modelled by `RenderEnv.buildErr` below, and the
menu value itself is this pure function.) -/
def build_tray_menu (status : ConnectionStatus) (usage : TokenUsage)
    (health : HealthStatus) (latency : Option ℕ) : List MenuEntry :=
  [ .item "status" (status_text status) false none,
    .item "health" (health_text health latency) false none,
    .item "usage" (usage_text usage) false none,
    .separator,
    .item "new_chat" "New Chat" true none,
    .separator,
    .item "show" "Show Clawdis" true none,
    .item "settings" "Settings..." true (some "CmdOrCtrl+,"),
    .separator,
    .item "quit" "Quit Clawdis" true (some "CmdOrCtrl+Q") ]

/-- The tooltip of `rebuild_tray_menu` (`match &status` — a function of the
connection status alone). -/
def tooltip_text : ConnectionStatus → String
  | .connected => "Clawdis - Connected"
  | .connecting => "Clawdis - Connecting..."
  | .disconnected => "Clawdis - Disconnected"
  | .error => "Clawdis - Connection Error"

/-- The live tray-icon handle: the menu and tooltip it currently
displays. -/
structure TrayHandle where
  menu : List MenuEntry
  tooltip : String
deriving DecidableEq, Repr

/-- `struct TrayState` — the app state for tray management.  Each field sits
behind its own `Mutex` in the source; here the record is threaded
explicitly through the operations. -/
structure TrayState where
  tray : Option TrayHandle
  status : ConnectionStatus
  usage : TokenUsage
  health : HealthStatus
  latency : Option ℕ
deriving DecidableEq, Repr

/-- `TrayState::default()` — no tray handle yet, `Disconnected`, zero
usage, `Unknown` health, no latency. -/
def TrayState.default : TrayState :=
  ⟨none, .disconnected, TokenUsage.default, .unknown, none⟩

/-- Error oracle for the fallible framework calls made during a rebuild:
`build_tray_menu`'s menu/item construction, `tray.set_tooltip`, and
`tray.set_menu`.  `none` means the call succeeds; `some e` means it fails
with the string-described error `e` (the source converts every such error
to a `String` via `map_err(|e| e.to_string())`). -/
structure RenderEnv where
  buildErr : Option String
  tooltipErr : Option String
  setMenuErr : Option String
deriving DecidableEq, Repr

/-- The environment in which every framework call succeeds. -/
def RenderEnv.ok : RenderEnv := ⟨none, none, none⟩

/-- `fn rebuild_tray_menu` — snapshot the four fields, compute the tooltip,
build the menu (may fail), and, only if a tray handle is present, apply
`set_tooltip` then `set_menu` (each may fail; a `set_menu` failure leaves
the already-applied new tooltip in place).  Returns the resulting state
paired with `none` on success or `some e` on a string-described error,
mirroring `Result<(), String>`. -/
def rebuild_tray_menu (env : RenderEnv) (s : TrayState) :
    TrayState × Option String :=
  match env.buildErr with
  | some e => (s, some e)
  | none =>
    let menu := build_tray_menu s.status s.usage s.health s.latency
    let tooltip := tooltip_text s.status
    match s.tray with
    | none => (s, none)
    | some h =>
      match env.tooltipErr with
      | some e => (s, some e)
      | none =>
        match env.setMenuErr with
        | some e => ({ s with tray := some { h with tooltip := tooltip } }, some e)
        | none => ({ s with tray := some { menu := menu, tooltip := tooltip } }, none)

/-- `#[tauri::command] fn set_tray_status` — overwrite the status field,
then rebuild the menu. -/
def set_tray_status (env : RenderEnv) (s : TrayState)
    (status : ConnectionStatus) : TrayState × Option String :=
  rebuild_tray_menu env { s with status := status }

/-- `#[tauri::command] fn set_tray_usage` — overwrite the usage field, then
rebuild the menu. -/
def set_tray_usage (env : RenderEnv) (s : TrayState) (usage : TokenUsage) :
    TrayState × Option String :=
  rebuild_tray_menu env { s with usage := usage }

/-- `#[tauri::command] fn set_tray_health` — overwrite both the health field
and the latency field (to `health.latency`, which may be `none`), then
rebuild the menu. -/
def set_tray_health (env : RenderEnv) (s : TrayState) (health : HealthInfo) :
    TrayState × Option String :=
  rebuild_tray_menu env { s with health := health.status, latency := health.latency }

/-! ## Theorems -/

/-- `fmtPrec1` always yields an integer part, a dot, and one decimal
digit. -/
theorem fmtPrec1_shape (n d : ℕ) :
    ∃ a b : ℕ, b < 10 ∧ fmtPrec1 n d = toString a ++ "." ++ toString b :=
  ⟨_, _, Nat.mod_lt _ (by norm_num), rfl⟩

/-- Counts of at least a million render as one decimal digit with an `M`
suffix. -/
theorem format_tokens_M (n : ℕ) (h : 1000000 ≤ n) :
    ∃ a b : ℕ, b < 10 ∧
      format_tokens n = toString a ++ "." ++ toString b ++ "M" := by
  obtain ⟨a, b, hb, he⟩ :=
    fmtPrec1_shape (roundF64 (roundF64 n 1).1 ((roundF64 n 1).2 * 1000000)).1
      (roundF64 (roundF64 n 1).1 ((roundF64 n 1).2 * 1000000)).2
  refine ⟨a, b, hb, ?_⟩
  unfold format_tokens
  rw [if_pos h]
  exact congrArg (fun x => x ++ "M") he

/-- Counts in `[1000, 1000000)` render as one decimal digit with a `k`
suffix. -/
theorem format_tokens_k (n : ℕ) (h1 : 1000 ≤ n) (h2 : n < 1000000) :
    ∃ a b : ℕ, b < 10 ∧
      format_tokens n = toString a ++ "." ++ toString b ++ "k" := by
  obtain ⟨a, b, hb, he⟩ :=
    fmtPrec1_shape (roundF64 (roundF64 n 1).1 ((roundF64 n 1).2 * 1000)).1
      (roundF64 (roundF64 n 1).1 ((roundF64 n 1).2 * 1000)).2
  refine ⟨a, b, hb, ?_⟩
  unfold format_tokens
  rw [if_neg (by omega), if_pos h1]
  exact congrArg (fun x => x ++ "k") he

/-- Counts below a thousand render as the plain integer. -/
theorem format_tokens_small (n : ℕ) (h : n < 1000) :
    format_tokens n = toString n := by
  unfold format_tokens
  rw [if_neg (by omega), if_neg (by omega)]

/-- Claim C1, counterexample: at `n = 999999` the code computes
`999999.0 / 1000.0 = 999.999` in binary64 and `{:.1}` rounds it up, so
`format_tokens` returns `"1000.0k"`, not `"999.0k"` as claimed. -/
theorem c1_counterexample :
    format_tokens 999999 = "1000.0k" ∧ format_tokens 999999 ≠ "999.0k" := by
  constructor <;> decide

/-- Claim C1 (amended): `format_tokens` returns `"1.0k"` at `n = 1000`,
`"999"` at `n = 999`, `"1.0M"` at `n = 1000000`, and `"1000.0k"` at
`n = 999999`; in general `n ≥ 1000000` renders as one-decimal millions with
an `M` suffix, `1000 ≤ n < 1000000` as one-decimal thousands with a `k`
suffix, and smaller `n` as the plain integer. -/
theorem c1_format_tokens :
    format_tokens 1000 = "1.0k" ∧ format_tokens 999 = "999" ∧
    format_tokens 1000000 = "1.0M" ∧ format_tokens 999999 = "1000.0k" ∧
    ∀ n : ℕ,
      (1000000 ≤ n → ∃ a b : ℕ, b < 10 ∧
        format_tokens n = toString a ++ "." ++ toString b ++ "M") ∧
      (1000 ≤ n → n < 1000000 → ∃ a b : ℕ, b < 10 ∧
        format_tokens n = toString a ++ "." ++ toString b ++ "k") ∧
      (n < 1000 → format_tokens n = toString n) :=
  ⟨by decide, by decide, by decide, by decide, fun n =>
    ⟨format_tokens_M n, format_tokens_k n, format_tokens_small n⟩⟩

/-- Witness for C1 at concrete inputs 2500000, 1500 and 7. -/
theorem c1_format_tokens_witness :
    (∃ a b : ℕ, b < 10 ∧
      format_tokens 2500000 = toString a ++ "." ++ toString b ++ "M") ∧
    (∃ a b : ℕ, b < 10 ∧
      format_tokens 1500 = toString a ++ "." ++ toString b ++ "k") ∧
    format_tokens 7 = toString 7 :=
  ⟨(c1_format_tokens.2.2.2.2 2500000).1 (by norm_num),
   (c1_format_tokens.2.2.2.2 1500).2.1 (by norm_num) (by norm_num),
   (c1_format_tokens.2.2.2.2 7).2.2 (by norm_num)⟩

/-- Claim C2: in the built menu, the usage item reads
`"Tokens: <fmt(total)> (↓<fmt(input)> ↑<fmt(output)>)"` when the total
counter is positive, and exactly `"Tokens: —"` when the total is zero,
regardless of the input and output counters. -/
theorem c2_usage_line :
    ∀ (st : ConnectionStatus) (h : HealthStatus) (l : Option ℕ)
      (u : TokenUsage),
      (0 < u.total_tokens →
        (build_tray_menu st u h l)[2]? = some (.item "usage"
          ("Tokens: " ++ format_tokens u.total_tokens ++ " (↓" ++
            format_tokens u.input_tokens ++ " ↑" ++
            format_tokens u.output_tokens ++ ")") false none)) ∧
      (u.total_tokens = 0 →
        (build_tray_menu st u h l)[2]? =
          some (.item "usage" "Tokens: —" false none)) := by
  intro st h l u
  constructor <;> intro hu <;> simp [build_tray_menu, usage_text, hu]

/-- Witness for C2 at usage `(100, 200, 300)` and at usage `(5, 6, 0)`. -/
theorem c2_usage_line_witness :
    (build_tray_menu .connected ⟨100, 200, 300⟩ .unknown none)[2]? =
      some (.item "usage"
        ("Tokens: " ++ format_tokens 300 ++ " (↓" ++ format_tokens 100 ++
          " ↑" ++ format_tokens 200 ++ ")") false none) ∧
    (build_tray_menu .connected ⟨5, 6, 0⟩ .unknown none)[2]? =
      some (.item "usage" "Tokens: —" false none) :=
  ⟨(c2_usage_line .connected .unknown none ⟨100, 200, 300⟩).1 (by norm_num),
   (c2_usage_line .connected .unknown none ⟨5, 6, 0⟩).2 rfl⟩

/-- Claim C3: the health line is the fixed string per enum value, with
`" (<ms>ms)"` appended exactly when the status is `Healthy` or `Degraded`
and a latency is present; `Unhealthy` and `Unknown` ignore the latency;
and the built menu carries that text as its second item. -/
theorem c3_health_line :
    ∀ (ms : ℕ) (l : Option ℕ) (st : ConnectionStatus) (u : TokenUsage),
      health_text .healthy (some ms) = "♥ Healthy (" ++ toString ms ++ "ms)" ∧
      health_text .healthy none = "♥ Healthy" ∧
      health_text .degraded (some ms) = "◐ Degraded (" ++ toString ms ++ "ms)" ∧
      health_text .degraded none = "◐ Degraded" ∧
      health_text .unhealthy l = "✕ Unhealthy" ∧
      health_text .unknown l = "? Unknown" ∧
      ∀ h : HealthStatus,
        (build_tray_menu st u h l)[1]? =
          some (.item "health" (health_text h l) false none) := by
  intro ms l st u
  refine ⟨rfl, rfl, rfl, rfl, ?_, ?_, ?_⟩
  · cases l <;> rfl
  · cases l <;> rfl
  · intro h
    cases h <;> cases l <;> rfl

/-- Claim C4: the status line is one exact fixed string per enum value, the
built menu carries it as its first item, and the tooltip applied by a
rebuild is one fixed string determined solely by the connection status,
unchanged by the usage, health and latency fields. -/
theorem c4_status_tooltip :
    ∀ (s : TrayState) (hdl : TrayHandle) (u : TokenUsage)
      (h : HealthStatus) (l : Option ℕ),
      (status_text .connected = "● Connected" ∧
        status_text .connecting = "○ Connecting..." ∧
        status_text .disconnected = "○ Disconnected" ∧
        status_text .error = "✕ Connection Error") ∧
      (tooltip_text .connected = "Clawdis - Connected" ∧
        tooltip_text .connecting = "Clawdis - Connecting..." ∧
        tooltip_text .disconnected = "Clawdis - Disconnected" ∧
        tooltip_text .error = "Clawdis - Connection Error") ∧
      (∀ st : ConnectionStatus,
        (build_tray_menu st u h l)[0]? =
          some (.item "status" (status_text st) false none)) ∧
      (s.tray = some hdl →
        (rebuild_tray_menu RenderEnv.ok s).1.tray =
          some ⟨build_tray_menu s.status s.usage s.health s.latency,
                tooltip_text s.status⟩) := by
  intro s hdl u h l
  refine ⟨⟨rfl, rfl, rfl, rfl⟩, ⟨rfl, rfl, rfl, rfl⟩, fun st => rfl, fun ht => ?_⟩
  simp [rebuild_tray_menu, RenderEnv.ok, ht]

/-- Witness for C4 at a concrete state whose tray handle is present. -/
theorem c4_status_tooltip_witness :
    (rebuild_tray_menu RenderEnv.ok
        ⟨some ⟨[], "old"⟩, .connected, ⟨1, 2, 3⟩, .healthy, some 5⟩).1.tray =
      some ⟨build_tray_menu .connected ⟨1, 2, 3⟩ .healthy (some 5),
            tooltip_text .connected⟩ :=
  (c4_status_tooltip ⟨some ⟨[], "old"⟩, .connected, ⟨1, 2, 3⟩, .healthy, some 5⟩
    ⟨[], "old"⟩ ⟨1, 2, 3⟩ .healthy (some 5)).2.2.2 rfl

/-- Claim C5: each update operation overwrites its target field before the
render, and the new value is kept even when the render fails; a failure of
menu construction, `set_tooltip` or `set_menu` is surfaced to the caller as
a string-described error (the three operations fail in exactly the same
environments, namely when construction fails or a tray handle is present
and applying the tooltip or menu fails). -/
theorem c5_error_propagation :
    ∀ (env : RenderEnv) (s : TrayState) (st : ConnectionStatus)
      (u : TokenUsage) (hi : HealthInfo),
      (set_tray_status env s st).1.status = st ∧
      (set_tray_usage env s u).1.usage = u ∧
      (set_tray_health env s hi).1.health = hi.status ∧
      (set_tray_health env s hi).1.latency = hi.latency ∧
      ((set_tray_status env s st).2.isSome ↔
        env.buildErr.isSome ∨
          s.tray.isSome ∧ (env.tooltipErr.isSome ∨ env.setMenuErr.isSome)) ∧
      (set_tray_usage env s u).2 = (set_tray_status env s st).2 ∧
      (set_tray_health env s hi).2 = (set_tray_status env s st).2 := by
  intro env s st u hi
  obtain ⟨eb, et, em⟩ := env
  obtain ⟨tr, s0, u0, h0, l0⟩ := s
  cases eb <;> cases tr <;> cases et <;> cases em <;>
    simp [set_tray_status, set_tray_usage, set_tray_health, rebuild_tray_menu]

/-- Claim C6: applying `set_tray_status`, `set_tray_usage` and
`set_tray_health` once each, in any of the six orders, yields the same
final state (fields and displayed menu/tooltip alike), in every render
environment. -/
theorem c6_update_order_commutes :
    ∀ (env : RenderEnv) (s : TrayState) (st : ConnectionStatus)
      (u : TokenUsage) (hi : HealthInfo),
      let fS := fun s0 => (set_tray_status env s0 st).1
      let fU := fun s0 => (set_tray_usage env s0 u).1
      let fH := fun s0 => (set_tray_health env s0 hi).1
      fS (fU (fH s)) = fS (fH (fU s)) ∧
      fS (fU (fH s)) = fU (fS (fH s)) ∧
      fS (fU (fH s)) = fU (fH (fS s)) ∧
      fS (fU (fH s)) = fH (fS (fU s)) ∧
      fS (fU (fH s)) = fH (fU (fS s)) := by
  intro env s st u hi
  obtain ⟨eb, et, em⟩ := env
  obtain ⟨tr, s0, u0, h0, l0⟩ := s
  cases eb <;> cases tr <;> cases et <;> cases em <;>
    refine ⟨rfl, rfl, rfl, rfl, rfl⟩

/-- Claim C7: an update operation invoked while the tray handle is absent
does not fail (given that menu construction itself succeeds): the field
mutation is applied, the tray update is silently skipped — even in
environments where applying the tooltip or menu would fail — and the
operation returns success. -/
theorem c7_absent_tray_ok :
    ∀ (env : RenderEnv) (s : TrayState) (st : ConnectionStatus)
      (u : TokenUsage) (hi : HealthInfo),
      env.buildErr = none → s.tray = none →
      (set_tray_status env s st).2 = none ∧
      (set_tray_status env s st).1 = { s with status := st } ∧
      (set_tray_usage env s u).2 = none ∧
      (set_tray_usage env s u).1 = { s with usage := u } ∧
      (set_tray_health env s hi).2 = none ∧
      (set_tray_health env s hi).1 =
        { s with health := hi.status, latency := hi.latency } := by
  intro env s st u hi heb htr
  obtain ⟨eb, et, em⟩ := env
  obtain ⟨tr, s0, u0, h0, l0⟩ := s
  cases heb
  cases htr
  exact ⟨rfl, rfl, rfl, rfl, rfl, rfl⟩

/-- Witness for C7 at a concrete handle-less state, in an environment where
applying the tooltip or menu would fail if attempted. -/
theorem c7_absent_tray_ok_witness :
    (set_tray_status ⟨none, some "boom", some "boom"⟩ TrayState.default
        .connected).2 = none ∧
    (set_tray_status ⟨none, some "boom", some "boom"⟩ TrayState.default
        .connected).1 = { TrayState.default with status := .connected } ∧
    (set_tray_usage ⟨none, some "boom", some "boom"⟩ TrayState.default
        ⟨1, 2, 3⟩).2 = none ∧
    (set_tray_usage ⟨none, some "boom", some "boom"⟩ TrayState.default
        ⟨1, 2, 3⟩).1 = { TrayState.default with usage := ⟨1, 2, 3⟩ } ∧
    (set_tray_health ⟨none, some "boom", some "boom"⟩ TrayState.default
        ⟨.healthy, some 42⟩).2 = none ∧
    (set_tray_health ⟨none, some "boom", some "boom"⟩ TrayState.default
        ⟨.healthy, some 42⟩).1 =
      { TrayState.default with health := .healthy, latency := some 42 } :=
  c7_absent_tray_ok ⟨none, some "boom", some "boom"⟩ TrayState.default
    .connected ⟨1, 2, 3⟩ ⟨.healthy, some 42⟩ rfl rfl

/-- Claim C8: each update operation is an idempotent overwrite — calling it
twice in a row with the same argument leaves the state (fields and
displayed menu/tooltip) and the returned result identical to calling it
once, in every render environment. -/
theorem c8_idempotent :
    ∀ (env : RenderEnv) (s : TrayState) (st : ConnectionStatus)
      (u : TokenUsage) (hi : HealthInfo),
      (set_tray_status env (set_tray_status env s st).1 st).1 =
        (set_tray_status env s st).1 ∧
      (set_tray_usage env (set_tray_usage env s u).1 u).1 =
        (set_tray_usage env s u).1 ∧
      (set_tray_health env (set_tray_health env s hi).1 hi).1 =
        (set_tray_health env s hi).1 ∧
      (set_tray_status env (set_tray_status env s st).1 st).2 =
        (set_tray_status env s st).2 ∧
      (set_tray_usage env (set_tray_usage env s u).1 u).2 =
        (set_tray_usage env s u).2 ∧
      (set_tray_health env (set_tray_health env s hi).1 hi).2 =
        (set_tray_health env s hi).2 := by
  intro env s st u hi
  obtain ⟨eb, et, em⟩ := env
  obtain ⟨tr, s0, u0, h0, l0⟩ := s
  cases eb <;> cases tr <;> cases et <;> cases em <;>
    refine ⟨rfl, rfl, rfl, rfl, rfl, rfl⟩

/-- Claim C10: each update operation modifies only its target field(s):
`set_tray_status` leaves usage, health and latency unchanged,
`set_tray_usage` leaves status, health and latency unchanged, and
`set_tray_health` overwrites both health and latency (including replacing a
stored latency with `none`) while leaving status and usage unchanged — in
every render environment, including failing ones. -/
theorem c10_frame :
    ∀ (env : RenderEnv) (s : TrayState) (st : ConnectionStatus)
      (u : TokenUsage) (hi : HealthInfo),
      (set_tray_status env s st).1.usage = s.usage ∧
      (set_tray_status env s st).1.health = s.health ∧
      (set_tray_status env s st).1.latency = s.latency ∧
      (set_tray_usage env s u).1.status = s.status ∧
      (set_tray_usage env s u).1.health = s.health ∧
      (set_tray_usage env s u).1.latency = s.latency ∧
      (set_tray_health env s hi).1.status = s.status ∧
      (set_tray_health env s hi).1.usage = s.usage ∧
      (set_tray_health env s hi).1.health = hi.status ∧
      (set_tray_health env s hi).1.latency = hi.latency := by
  intro env s st u hi
  obtain ⟨eb, et, em⟩ := env
  obtain ⟨tr, s0, u0, h0, l0⟩ := s
  cases eb <;> cases tr <;> cases et <;> cases em <;>
    refine ⟨rfl, rfl, rfl, rfl, rfl, rfl, rfl, rfl, rfl, rfl⟩

end Clawdis
